import Mathlib

/-!
Verification of the PouncePoint prey animation (src/src/App.tsx, src/src/types.ts).

The motion engine and session state are embedded as Lean definitions, with
random draws (jitter trigger, jitter angle, teleport coordinates) made
explicit parameters so each branch of the original code is a total function.
Real-valued quantities of the source are modelled as real numbers; the
session state fields (score, speed slider value) use exact arithmetic.
-/

namespace PouncePoint

/-- The four prey appearance variants of types.ts (`PreyType`). -/
inductive PreyType where
  | laser
  | mouse
  | bird
  | bug
deriving DecidableEq, Repr

/-- The three background themes of App.tsx (`THEMES`). -/
inductive Theme where
  | minimal
  | garden
  | night
deriving DecidableEq, Repr

/-- Session state of types.ts (`GameState`): score, prey type, speed
multiplier, theme, mute flag.  The speed slider value is rational. -/
structure GameState where
  score : Nat
  preyType : PreyType
  speed : Rat
  isMuted : Bool
  theme : Theme
deriving DecidableEq, Repr

/-- Full session: the `GameState` record together with the separate
`isPlaying` React state of App.tsx. -/
structure SessionState where
  gameState : GameState
  isPlaying : Bool
deriving DecidableEq, Repr

/-- The initial game state of App.tsx line 37: score 0, laser prey,
speed 3, minimal theme, unmuted. -/
def initialGameState : GameState :=
  { score := 0, preyType := PreyType.laser, speed := 3,
    isMuted := false, theme := Theme.minimal }

/-- The speed slider change handler of App.tsx line 291:
`setGameState(prev => (\x7b ...prev, speed: parseFloat(e.target.value) \x7d))`.
It stores the parsed value as-is. -/
def setSpeed (g : GameState) (v : Rat) : GameState :=
  { g with speed := v }

/-- The score-increment part of `handlePreyCatch` (App.tsx line 115):
`setGameState(prev => (\x7b ...prev, score: prev.score + 1 \x7d))`. -/
def catchScore (g : GameState) : GameState :=
  { g with score := g.score + 1 }

/-- The reset-score button handler of App.tsx line 247:
`setGameState(prev => (\x7b ...prev, score: 0 \x7d))`; the separate
`isPlaying` state is untouched by this handler. -/
def resetScore (s : SessionState) : SessionState :=
  { s with gameState := { s.gameState with score := 0 } }

/-- JavaScript `Math.atan2(y, x)` on real inputs. -/
noncomputable def atan2 (y x : ℝ) : ℝ :=
  if 0 < x then Real.arctan (y / x)
  else if x < 0 then
    (if 0 ≤ y then Real.arctan (y / x) + Real.pi
     else Real.arctan (y / x) - Real.pi)
  else if 0 < y then Real.pi / 2
  else if y < 0 then -(Real.pi / 2)
  else 0

/-- The radians-to-degrees factor `180 / Math.PI` of App.tsx. -/
noncomputable def radToDeg : ℝ := 180 / Real.pi

/-- State of the motion engine: the prey position and rotation of the
`prey` state together with the `velocityRef` vector (App.tsx lines 47-56). -/
structure MotionState where
  x : ℝ
  y : ℝ
  rotation : ℝ
  dx : ℝ
  dy : ℝ

/-- Position update of `animate` (App.tsx lines 77-78):
`x += dx * speed; y += dy * speed`. -/
noncomputable def moveStep (speed : ℝ) (s : MotionState) : MotionState :=
  { s with x := s.x + s.dx * speed, y := s.y + s.dy * speed }

/-- Horizontal wall bounce of `animate` (App.tsx lines 81-84): when x has
crossed a margin, negate `dx` and recompute the rotation from the updated
velocity reference (dy is not yet flipped at this point). -/
noncomputable def bounceX (width : ℝ) (s : MotionState) : MotionState :=
  if s.x < 50 ∨ s.x > width - 50 then
    { s with dx := -s.dx, rotation := atan2 s.dy (-s.dx) * radToDeg }
  else s

/-- Vertical wall bounce of `animate` (App.tsx lines 85-88): when y has
crossed a margin, negate `dy` and recompute the rotation from the updated
velocity reference (a preceding x-bounce is already reflected in `dx`). -/
noncomputable def bounceY (height : ℝ) (s : MotionState) : MotionState :=
  if s.y < 50 ∨ s.y > height - 50 then
    { s with dy := -s.dy, rotation := atan2 (-s.dy) s.dx * radToDeg }
  else s

/-- Random direction jitter of `animate` (App.tsx lines 91-99).  The source
computes `newDx`/`newDy` from the local variables `dx`, `dy` destructured at
the top of the tick, not from the current (possibly bounced) velocity
reference; the stale pre-tick components are therefore explicit arguments
`dx0`, `dy0` here. -/
noncomputable def jitterStep (angle dx0 dy0 : ℝ) (s : MotionState) : MotionState :=
  { s with
    dx := dx0 * Real.cos angle - dy0 * Real.sin angle,
    dy := dx0 * Real.sin angle + dy0 * Real.cos angle,
    rotation := atan2 (dx0 * Real.sin angle + dy0 * Real.cos angle)
      (dx0 * Real.cos angle - dy0 * Real.sin angle) * radToDeg }

/-- One tick of `animate` (App.tsx lines 69-102).  `isPlaying` gates the
whole body; `jitterFires` stands for the draw `Math.random() < 0.02` and
`angle` for the draw `(Math.random() - 0.5) * 0.5`. -/
noncomputable def tick (isPlaying : Bool) (speed width height : ℝ)
    (jitterFires : Bool) (angle : ℝ) (s : MotionState) : MotionState :=
  if isPlaying then
    let bounced := bounceY height (bounceX width (moveStep speed s))
    if jitterFires then jitterStep angle s.dx s.dy bounced else bounced
  else s

/-- Prey record of types.ts: identifier, position, rotation, display scale. -/
structure Prey where
  id : String
  x : ℝ
  y : ℝ
  rotation : ℝ
  scale : ℝ

/-- Teleport of `handlePreyCatch` (App.tsx lines 122-126):
`x: Math.random() * (dimensions.width - 100) + 50` and likewise for y,
with `rx`, `ry` the two uniform draws from [0, 1). -/
noncomputable def teleport (rx ry width height : ℝ) (p : Prey) : Prey :=
  { p with x := rx * (width - 100) + 50, y := ry * (height - 100) + 50 }

/-- The synchronous effects of `handlePreyCatch` (App.tsx lines 114-126) on
the game state, the prey and the velocity reference: increment the score,
pulse the display scale to 1.5, teleport the prey; the velocity reference is
never touched by the handler. -/
noncomputable def handlePreyCatch (rx ry width height : ℝ) (g : GameState)
    (p : Prey) (v : ℝ × ℝ) : GameState × Prey × (ℝ × ℝ) :=
  (catchScore g, teleport rx ry width height { p with scale := 1.5 }, v)

/-- Velocity states reachable from the startup state (velocity (2, 2) from
`velocityRef`, prey centred in the viewport) by any sequence of ticks. -/
inductive ReachableVel : MotionState → Prop where
  | init (w h : ℝ) : ReachableVel ⟨w / 2, h / 2, 0, 2, 2⟩
  | step (p : Bool) (speed w h : ℝ) (jf : Bool) (a : ℝ) (s : MotionState) :
      ReachableVel s → ReachableVel (tick p speed w h jf a s)

lemma bounceX_x (width : ℝ) (s : MotionState) : (bounceX width s).x = s.x := by
  unfold bounceX; split <;> rfl

lemma bounceX_y (width : ℝ) (s : MotionState) : (bounceX width s).y = s.y := by
  unfold bounceX; split <;> rfl

lemma bounceY_x (height : ℝ) (s : MotionState) : (bounceY height s).x = s.x := by
  unfold bounceY; split <;> rfl

lemma bounceY_y (height : ℝ) (s : MotionState) : (bounceY height s).y = s.y := by
  unfold bounceY; split <;> rfl

lemma bounceX_dy (width : ℝ) (s : MotionState) : (bounceX width s).dy = s.dy := by
  unfold bounceX; split <;> rfl

lemma bounceY_dx (height : ℝ) (s : MotionState) : (bounceY height s).dx = s.dx := by
  unfold bounceY; split <;> rfl

lemma jitterStep_x (angle dx0 dy0 : ℝ) (s : MotionState) :
    (jitterStep angle dx0 dy0 s).x = s.x := rfl

lemma jitterStep_y (angle dx0 dy0 : ℝ) (s : MotionState) :
    (jitterStep angle dx0 dy0 s).y = s.y := rfl

/-- A playing tick moves x by exactly dx · speed, whatever the bounces and
jitter do. -/
lemma tick_x (speed width height : ℝ) (jf : Bool) (angle : ℝ)
    (s : MotionState) :
    (tick true speed width height jf angle s).x = s.x + s.dx * speed := by
  unfold tick
  simp only [if_pos]
  split
  · rw [jitterStep_x, bounceY_x, bounceX_x]; rfl
  · rw [bounceY_x, bounceX_x]; rfl

/-- A playing tick moves y by exactly dy · speed. -/
lemma tick_y (speed width height : ℝ) (jf : Bool) (angle : ℝ)
    (s : MotionState) :
    (tick true speed width height jf angle s).y = s.y + s.dy * speed := by
  unfold tick
  simp only [if_pos]
  split
  · rw [jitterStep_y, bounceY_y, bounceX_y]; rfl
  · rw [bounceY_y, bounceX_y]; rfl

lemma bounceX_dx_of (width : ℝ) (s : MotionState)
    (h : s.x < 50 ∨ s.x > width - 50) : (bounceX width s).dx = -s.dx := by
  unfold bounceX; rw [if_pos h]

lemma bounceY_dy_of (height : ℝ) (s : MotionState)
    (h : s.y < 50 ∨ s.y > height - 50) : (bounceY height s).dy = -s.dy := by
  unfold bounceY; rw [if_pos h]

/-- Claim C4: a tick invoked while paused is a no-op: the whole motion
state, position, velocity and heading included, is unchanged. -/
theorem paused_tick_noop (speed width height : ℝ) (jf : Bool) (angle : ℝ)
    (s : MotionState) : tick false speed width height jf angle s = s := rfl

/-- Claim C7: each catch event increments the score by exactly 1, so the
score after N catches equals the initial score plus N. -/
theorem score_after_catches (n : Nat) (g : GameState) :
    (catchScore^[n] g).score = g.score + n := by
  induction n with
  | zero => rfl
  | succ k ih =>
      rw [Function.iterate_succ_apply']
      show (catchScore^[k] g).score + 1 = g.score + (k + 1)
      rw [ih]
      omega

/-- Claim C9: the score reset sets the score to exactly 0 and leaves the
prey type, speed, theme, mute flag and play flag unchanged. -/
theorem resetScore_only_score (s : SessionState) :
    (resetScore s).gameState.score = 0 ∧
    (resetScore s).gameState.preyType = s.gameState.preyType ∧
    (resetScore s).gameState.speed = s.gameState.speed ∧
    (resetScore s).gameState.theme = s.gameState.theme ∧
    (resetScore s).gameState.isMuted = s.gameState.isMuted ∧
    (resetScore s).isPlaying = s.isPlaying :=
  ⟨rfl, rfl, rfl, rfl, rfl, rfl⟩

/-- Claim C2 fails as stated: the speed change handler stores the parsed
value as-is.  Submitting 42 stores 42, which is outside [1, 10], is not
clamped into the range, and is not rejected (the stored speed differs from
the prior speed 3), so the setter itself neither rejects nor clamps. -/
theorem setSpeed_no_clamp_counterexample :
    (setSpeed initialGameState 42).speed = 42 ∧
    ¬ (setSpeed initialGameState 42).speed ≤ 10 ∧
    (setSpeed initialGameState 42).speed ≠ initialGameState.speed := by
  refine ⟨rfl, ?_, ?_⟩ <;> decide

/-- Claim C2 amended: the speed setter stores every submitted value exactly
in session state and changes no other field; in particular values inside
[1, 10] in steps of 0.5 are stored exactly.  Rejection or clamping of
out-of-range values is not performed by the setter itself but delegated to
the min/max/step attributes of the range input element. -/
theorem setSpeed_stores_exactly (g : GameState) (v : Rat) :
    (setSpeed g v).speed = v ∧
    (setSpeed g v).score = g.score ∧
    (setSpeed g v).preyType = g.preyType ∧
    (setSpeed g v).theme = g.theme ∧
    (setSpeed g v).isMuted = g.isMuted :=
  ⟨rfl, rfl, rfl, rfl, rfl⟩

/-- Claim C6: the x and y boundary checks are independent: in a tick where
both coordinates cross their margins, each check flips its own velocity
component, both in the bounce stage itself and in the result of a tick in
which the jitter does not fire. -/
theorem corner_bounce_flips_both (speed width height angle : ℝ)
    (s : MotionState)
    (hx : (moveStep speed s).x < 50 ∨ (moveStep speed s).x > width - 50)
    (hy : (moveStep speed s).y < 50 ∨ (moveStep speed s).y > height - 50) :
    (bounceY height (bounceX width (moveStep speed s))).dx = -s.dx ∧
    (bounceY height (bounceX width (moveStep speed s))).dy = -s.dy ∧
    (tick true speed width height false angle s).dx = -s.dx ∧
    (tick true speed width height false angle s).dy = -s.dy := by
  have e : tick true speed width height false angle s
      = bounceY height (bounceX width (moveStep speed s)) := rfl
  have hdx : (bounceY height (bounceX width (moveStep speed s))).dx = -s.dx := by
    rw [bounceY_dx, bounceX_dx_of width (moveStep speed s) hx]
    rfl
  have hyc : (bounceX width (moveStep speed s)).y < 50 ∨
      (bounceX width (moveStep speed s)).y > height - 50 := by
    rw [bounceX_y]; exact hy
  have hdy : (bounceY height (bounceX width (moveStep speed s))).dy = -s.dy := by
    rw [bounceY_dy_of height _ hyc, bounceX_dy]
    rfl
  exact ⟨hdx, hdy, by rw [e]; exact hdx, by rw [e]; exact hdy⟩

/-- Witness for C6 at a concrete corner input: position (798, 598),
velocity (2, 2), speed 3 on an 800×600 viewport; the move reaches
(804, 604), both margins are crossed and both components flip. -/
theorem corner_bounce_flips_both_witness :
    (tick true 3 800 600 false 0 ⟨798, 598, 0, 2, 2⟩).dx = -2 ∧
    (tick true 3 800 600 false 0 ⟨798, 598, 0, 2, 2⟩).dy = -2 := by
  have h := corner_bounce_flips_both 3 800 600 0 ⟨798, 598, 0, 2, 2⟩
    (by right; norm_num [moveStep]) (by right; norm_num [moveStep])
  exact ⟨h.2.2.1, h.2.2.2⟩

/-- Claim C1 fails as stated: at position (798, 300) with velocity (2, 2)
and speed 3 on an 800×600 viewport, the tick ends with x = 804, outside
[50, 750]: the bounce negates the velocity component but never clamps the
position back inside the margins. -/
theorem tick_escapes_margin_counterexample :
    (tick true 3 800 600 false 0 ⟨798, 300, 0, 2, 2⟩).x = 804 ∧
    ¬ (tick true 3 800 600 false 0 ⟨798, 300, 0, 2, 2⟩).x ≤ 800 - 50 := by
  have hx : (tick true 3 800 600 false 0 ⟨798, 300, 0, 2, 2⟩).x
      = 798 + 2 * 3 := tick_x 3 800 600 false 0 ⟨798, 300, 0, 2, 2⟩
  rw [hx]
  norm_num

/-- Claim C1 amended: a tick may overstep a margin, but by at most one step:
if the pre-tick position lies within [50, width − 50] × [50, height − 50],
the post-tick position lies within those margins widened by
speed · |velocity component| on each axis. -/
theorem tick_position_near_margin (speed width height : ℝ) (jf : Bool)
    (angle : ℝ) (s : MotionState) (hs : 0 ≤ speed)
    (hx1 : 50 ≤ s.x) (hx2 : s.x ≤ width - 50)
    (hy1 : 50 ≤ s.y) (hy2 : s.y ≤ height - 50) :
    (50 - speed * |s.dx| ≤ (tick true speed width height jf angle s).x ∧
     (tick true speed width height jf angle s).x ≤ width - 50 + speed * |s.dx|) ∧
    (50 - speed * |s.dy| ≤ (tick true speed width height jf angle s).y ∧
     (tick true speed width height jf angle s).y ≤ height - 50 + speed * |s.dy|) := by
  rw [tick_x, tick_y]
  have hdx1 : -|s.dx| * speed ≤ s.dx * speed :=
    mul_le_mul_of_nonneg_right (neg_abs_le s.dx) hs
  have hdx2 : s.dx * speed ≤ |s.dx| * speed :=
    mul_le_mul_of_nonneg_right (le_abs_self s.dx) hs
  have hdy1 : -|s.dy| * speed ≤ s.dy * speed :=
    mul_le_mul_of_nonneg_right (neg_abs_le s.dy) hs
  have hdy2 : s.dy * speed ≤ |s.dy| * speed :=
    mul_le_mul_of_nonneg_right (le_abs_self s.dy) hs
  constructor <;> constructor <;> nlinarith

/-- Witness for the amended C1 at a concrete in-bounds input: position
(400, 300), velocity (2, 2), speed 3 on an 800×600 viewport. -/
theorem tick_position_near_margin_witness :
    (50 - 3 * |(2:ℝ)| ≤ (tick true 3 800 600 false 0 ⟨400, 300, 0, 2, 2⟩).x ∧
     (tick true 3 800 600 false 0 ⟨400, 300, 0, 2, 2⟩).x ≤ 800 - 50 + 3 * |(2:ℝ)|) ∧
    (50 - 3 * |(2:ℝ)| ≤ (tick true 3 800 600 false 0 ⟨400, 300, 0, 2, 2⟩).y ∧
     (tick true 3 800 600 false 0 ⟨400, 300, 0, 2, 2⟩).y ≤ 600 - 50 + 3 * |(2:ℝ)|) :=
  tick_position_near_margin 3 800 600 false 0 ⟨400, 300, 0, 2, 2⟩ (by norm_num)
    (by norm_num) (by norm_num) (by norm_num) (by norm_num)

/-- Claim C3: evaluation at the failing input.  Position (798, 300),
velocity (2, 2), speed 3, viewport 800×600, jitter firing with angle 0.
The bounce negates dx inside the velocity reference, but the jitter then
overwrites the reference with a rotation of the stale pre-bounce locals
(dx, dy) = (2, 2); with angle 0 that rotation is the identity, so the tick
ends with velocity (2, 2): the flip is lost, where the specified order
(bounce first, jitter rotating the post-bounce vector) would end with
dx = -2. -/
theorem jitter_overwrites_bounce :
    (tick true 3 800 600 true 0 ⟨798, 300, 0, 2, 2⟩).dx = 2 ∧
    (tick true 3 800 600 true 0 ⟨798, 300, 0, 2, 2⟩).dy = 2 ∧
    ¬ (tick true 3 800 600 true 0 ⟨798, 300, 0, 2, 2⟩).dx = -2 := by
  have edx : (tick true 3 800 600 true 0 ⟨798, 300, 0, 2, 2⟩).dx
      = 2 * Real.cos 0 - 2 * Real.sin 0 := rfl
  have edy : (tick true 3 800 600 true 0 ⟨798, 300, 0, 2, 2⟩).dy
      = 2 * Real.sin 0 + 2 * Real.cos 0 := rfl
  rw [Real.cos_zero, Real.sin_zero] at edx edy
  norm_num at edx edy
  refine ⟨edx, edy, ?_⟩
  rw [edx]
  norm_num

lemma tick_rotation_eq_atan2 (speed width height : ℝ) (jf : Bool)
    (angle : ℝ) (s : MotionState)
    (hb : ((moveStep speed s).x < 50 ∨ (moveStep speed s).x > width - 50) ∨
      ((moveStep speed s).y < 50 ∨ (moveStep speed s).y > height - 50)) :
    (tick true speed width height jf angle s).rotation =
      atan2 (tick true speed width height jf angle s).dy
        (tick true speed width height jf angle s).dx * radToDeg := by
  cases jf with
  | true => rfl
  | false =>
      have e : tick true speed width height false angle s
          = bounceY height (bounceX width (moveStep speed s)) := rfl
      rw [e]
      by_cases hyc : (bounceX width (moveStep speed s)).y < 50 ∨
          (bounceX width (moveStep speed s)).y > height - 50
      · unfold bounceY
        rw [if_pos hyc]
      · unfold bounceY
        rw [if_neg hyc]
        by_cases hxc : (moveStep speed s).x < 50 ∨
            (moveStep speed s).x > width - 50
        · unfold bounceX
          rw [if_pos hxc]
        · exfalso
          rw [bounceX_y] at hyc
          rcases hb with h | h
          · exact hxc h
          · exact hyc h

lemma atan2_two_neg_two : atan2 2 (-2) = 3 * Real.pi / 4 := by
  have h1 : ¬ (0:ℝ) < -2 := by norm_num
  have h2 : (-2:ℝ) < 0 := by norm_num
  have h3 : (0:ℝ) ≤ 2 := by norm_num
  unfold atan2
  rw [if_neg h1, if_pos h2, if_pos h3]
  rw [show (2:ℝ) / (-2) = -1 by norm_num, Real.arctan_neg, Real.arctan_one]
  ring

lemma atan2_two_neg_two_deg : atan2 2 (-2) * radToDeg = 135 := by
  rw [atan2_two_neg_two]
  unfold radToDeg
  field_simp
  ring

/-- Claim C5: whenever a tick bounces (one of the coordinates crossed a
margin after the move), the resulting rotation is atan2 of the resulting
velocity vector, expressed in degrees; and at the specific input of the
spec (position (798, 300), velocity (2, 2), speed 3, margin 50 on an
800-wide viewport) x would become 804 > 750, the x-velocity flips to -2
and the new heading is atan2(2, -2) = 135 degrees. -/
theorem heading_after_bounce :
    (∀ (speed width height : ℝ) (jf : Bool) (angle : ℝ) (s : MotionState),
      ((moveStep speed s).x < 50 ∨ (moveStep speed s).x > width - 50) ∨
      ((moveStep speed s).y < 50 ∨ (moveStep speed s).y > height - 50) →
      (tick true speed width height jf angle s).rotation =
        atan2 (tick true speed width height jf angle s).dy
          (tick true speed width height jf angle s).dx * radToDeg) ∧
    ((tick true 3 800 600 false 0 ⟨798, 300, 0, 2, 2⟩).dx = -2 ∧
     (tick true 3 800 600 false 0 ⟨798, 300, 0, 2, 2⟩).dy = 2 ∧
     (tick true 3 800 600 false 0 ⟨798, 300, 0, 2, 2⟩).rotation = 135) := by
  have e : tick true 3 800 600 false 0 ⟨798, 300, 0, 2, 2⟩
      = bounceY 600 (bounceX 800 (moveStep 3 ⟨798, 300, 0, 2, 2⟩)) := rfl
  have hxc : (moveStep 3 (⟨798, 300, 0, 2, 2⟩ : MotionState)).x < 50 ∨
      (moveStep 3 (⟨798, 300, 0, 2, 2⟩ : MotionState)).x > 800 - 50 := by
    right; norm_num [moveStep]
  have hyc : ¬ ((bounceX 800 (moveStep 3 (⟨798, 300, 0, 2, 2⟩ : MotionState))).y < 50 ∨
      (bounceX 800 (moveStep 3 (⟨798, 300, 0, 2, 2⟩ : MotionState))).y > 600 - 50) := by
    rw [bounceX_y]
    push_neg
    constructor <;> norm_num [moveStep]
  have hdx : (tick true 3 800 600 false 0 ⟨798, 300, 0, 2, 2⟩).dx = -2 := by
    rw [e, bounceY_dx, bounceX_dx_of 800 _ hxc]
    norm_num [moveStep]
  have hdy : (tick true 3 800 600 false 0 ⟨798, 300, 0, 2, 2⟩).dy = 2 := by
    rw [e]
    unfold bounceY
    rw [if_neg hyc, bounceX_dy]
    norm_num [moveStep]
  have hrot := tick_rotation_eq_atan2 3 800 600 false 0 ⟨798, 300, 0, 2, 2⟩
    (Or.inl hxc)
  rw [hdx, hdy, atan2_two_neg_two_deg] at hrot
  exact ⟨tick_rotation_eq_atan2, hdx, hdy, hrot⟩

/-- Witness for C5: the general heading equation instantiated at the
concrete bounce input of the spec scenario. -/
theorem heading_after_bounce_witness :
    (tick true 3 800 600 false 0 ⟨798, 300, 0, 2, 2⟩).rotation =
      atan2 (tick true 3 800 600 false 0 ⟨798, 300, 0, 2, 2⟩).dy
        (tick true 3 800 600 false 0 ⟨798, 300, 0, 2, 2⟩).dx * radToDeg :=
  heading_after_bounce.1 3 800 600 false 0 ⟨798, 300, 0, 2, 2⟩
    (Or.inl (Or.inr (by norm_num [moveStep])))

/-- Claim C8: for every outcome of the two uniform draws in [0, 1), the
catch teleport lands in [50, width − 50] × [50, height − 50], and the catch
resets neither the prey rotation nor the velocity reference. -/
theorem teleport_in_bounds (rx ry width height : ℝ) (g : GameState)
    (p : Prey) (v : ℝ × ℝ) (hrx0 : 0 ≤ rx) (hrx1 : rx < 1)
    (hry0 : 0 ≤ ry) (hry1 : ry < 1) (hw : 100 ≤ width) (hh : 100 ≤ height) :
    50 ≤ (handlePreyCatch rx ry width height g p v).2.1.x ∧
    (handlePreyCatch rx ry width height g p v).2.1.x ≤ width - 50 ∧
    50 ≤ (handlePreyCatch rx ry width height g p v).2.1.y ∧
    (handlePreyCatch rx ry width height g p v).2.1.y ≤ height - 50 ∧
    (handlePreyCatch rx ry width height g p v).2.1.rotation = p.rotation ∧
    (handlePreyCatch rx ry width height g p v).2.2 = v := by
  have ex : (handlePreyCatch rx ry width height g p v).2.1.x
      = rx * (width - 100) + 50 := rfl
  have ey : (handlePreyCatch rx ry width height g p v).2.1.y
      = ry * (height - 100) + 50 := rfl
  have hwx : (0:ℝ) ≤ width - 100 := by linarith
  have hhy : (0:ℝ) ≤ height - 100 := by linarith
  have hx0 : 0 ≤ rx * (width - 100) := mul_nonneg hrx0 hwx
  have hx1 : rx * (width - 100) ≤ 1 * (width - 100) :=
    mul_le_mul_of_nonneg_right hrx1.le hwx
  have hy0 : 0 ≤ ry * (height - 100) := mul_nonneg hry0 hhy
  have hy1 : ry * (height - 100) ≤ 1 * (height - 100) :=
    mul_le_mul_of_nonneg_right hry1.le hhy
  rw [ex, ey]
  refine ⟨by linarith, by linarith, by linarith, by linarith, rfl, rfl⟩

/-- Witness for C8 at a concrete input: both draws 1/2, an 800×600
viewport, the initial game state and a prey at (400, 300). -/
theorem teleport_in_bounds_witness :
    50 ≤ (handlePreyCatch (1/2) (1/2) 800 600 initialGameState
      ⟨"prey-1", 400, 300, 0, 1⟩ (2, 2)).2.1.x ∧
    (handlePreyCatch (1/2) (1/2) 800 600 initialGameState
      ⟨"prey-1", 400, 300, 0, 1⟩ (2, 2)).2.1.x ≤ 800 - 50 ∧
    50 ≤ (handlePreyCatch (1/2) (1/2) 800 600 initialGameState
      ⟨"prey-1", 400, 300, 0, 1⟩ (2, 2)).2.1.y ∧
    (handlePreyCatch (1/2) (1/2) 800 600 initialGameState
      ⟨"prey-1", 400, 300, 0, 1⟩ (2, 2)).2.1.y ≤ 600 - 50 ∧
    (handlePreyCatch (1/2) (1/2) 800 600 initialGameState
      ⟨"prey-1", 400, 300, 0, 1⟩ (2, 2)).2.1.rotation =
      (⟨"prey-1", 400, 300, 0, 1⟩ : Prey).rotation ∧
    (handlePreyCatch (1/2) (1/2) 800 600 initialGameState
      ⟨"prey-1", 400, 300, 0, 1⟩ (2, 2)).2.2 = ((2:ℝ), (2:ℝ)) :=
  teleport_in_bounds (1/2) (1/2) 800 600 initialGameState
    ⟨"prey-1", 400, 300, 0, 1⟩ (2, 2) (by norm_num) (by norm_num)
    (by norm_num) (by norm_num) (by norm_num) (by norm_num)

lemma bounceX_sq (width : ℝ) (s : MotionState) :
    (bounceX width s).dx ^ 2 + (bounceX width s).dy ^ 2
      = s.dx ^ 2 + s.dy ^ 2 := by
  unfold bounceX
  split
  · show (-s.dx) ^ 2 + s.dy ^ 2 = s.dx ^ 2 + s.dy ^ 2
    ring
  · rfl

lemma bounceY_sq (height : ℝ) (s : MotionState) :
    (bounceY height s).dx ^ 2 + (bounceY height s).dy ^ 2
      = s.dx ^ 2 + s.dy ^ 2 := by
  unfold bounceY
  split
  · show s.dx ^ 2 + (-s.dy) ^ 2 = s.dx ^ 2 + s.dy ^ 2
    ring
  · rfl

/-- Every tick preserves the squared magnitude of the velocity vector. -/
lemma tick_normSq (p : Bool) (speed width height : ℝ) (jf : Bool)
    (angle : ℝ) (s : MotionState) :
    (tick p speed width height jf angle s).dx ^ 2 +
      (tick p speed width height jf angle s).dy ^ 2
      = s.dx ^ 2 + s.dy ^ 2 := by
  cases p with
  | false => rfl
  | true =>
      cases jf with
      | true =>
          have edx : (tick true speed width height true angle s).dx
              = s.dx * Real.cos angle - s.dy * Real.sin angle := rfl
          have edy : (tick true speed width height true angle s).dy
              = s.dx * Real.sin angle + s.dy * Real.cos angle := rfl
          rw [edx, edy]
          have hsc := Real.sin_sq_add_cos_sq angle
          linear_combination (s.dx ^ 2 + s.dy ^ 2) * hsc
      | false =>
          have e : tick true speed width height false angle s
              = bounceY height (bounceX width (moveStep speed s)) := rfl
          rw [e]
          calc (bounceY height (bounceX width (moveStep speed s))).dx ^ 2 +
                  (bounceY height (bounceX width (moveStep speed s))).dy ^ 2
              = (bounceX width (moveStep speed s)).dx ^ 2 +
                  (bounceX width (moveStep speed s)).dy ^ 2 :=
                bounceY_sq height (bounceX width (moveStep speed s))
            _ = (moveStep speed s).dx ^ 2 + (moveStep speed s).dy ^ 2 :=
                bounceX_sq width (moveStep speed s)
            _ = s.dx ^ 2 + s.dy ^ 2 := rfl

/-- Claim C10: every tick preserves the Euclidean magnitude of the velocity
vector (a bounce only negates a component and the jitter is a pure
rotation), so every state reachable from the startup velocity (2, 2) has
velocity magnitude 2·√2. -/
theorem velocity_magnitude_invariant :
    (∀ (p : Bool) (speed width height : ℝ) (jf : Bool) (angle : ℝ)
      (s : MotionState),
      Real.sqrt ((tick p speed width height jf angle s).dx ^ 2 +
        (tick p speed width height jf angle s).dy ^ 2)
        = Real.sqrt (s.dx ^ 2 + s.dy ^ 2)) ∧
    (∀ s : MotionState, ReachableVel s →
      Real.sqrt (s.dx ^ 2 + s.dy ^ 2) = 2 * Real.sqrt 2) := by
  constructor
  · intro p speed width height jf angle s
    rw [tick_normSq]
  · intro s hs
    induction hs with
    | init w h =>
        show Real.sqrt ((2:ℝ) ^ 2 + (2:ℝ) ^ 2) = 2 * Real.sqrt 2
        rw [show ((2:ℝ) ^ 2 + (2:ℝ) ^ 2) = 2 ^ 2 * 2 by norm_num,
          Real.sqrt_mul (by norm_num : (0:ℝ) ≤ 2 ^ 2),
          Real.sqrt_sq (by norm_num : (0:ℝ) ≤ 2)]
    | step p speed w h jf a s hs ih =>
        rw [tick_normSq]
        exact ih

/-- Witness for C10: the startup state (velocity (2, 2), prey centred in an
800×600 viewport) is reachable and its velocity magnitude is 2·√2. -/
theorem velocity_magnitude_invariant_witness :
    Real.sqrt ((⟨800 / 2, 600 / 2, 0, 2, 2⟩ : MotionState).dx ^ 2 +
      (⟨800 / 2, 600 / 2, 0, 2, 2⟩ : MotionState).dy ^ 2) = 2 * Real.sqrt 2 :=
  velocity_magnitude_invariant.2 _ (ReachableVel.init 800 600)

end PouncePoint

